import Mathlib

/-!
Verification of the ELEVEA subscription/billing, settings and feedback
core against its natural-language specification.

The JavaScript services are shallowly embedded: SQLite tables become Lean
lists of rows, statements become list traversals, thrown `Error` values
become an explicit error type, and JavaScript truthiness of nullable
values is made explicit.  Sources:

- `SubscriptionService` (src/unnamed/part_004)
- `SiteService`, `FeedbackService`, `LeadService` (src/src/services/feedbackService.js concatenation)
- `SettingsService` (src/src/services/settingsService.js)
- settings/feedback route handlers (src/src/routes/feedbacks.js concatenation)
- the Drizzle storage layer (src/server.mjs, src/shared/schema.ts)
-/

namespace Elevea

/-- Errors surfaced by the embedded services: a thrown JavaScript
`new Error(msg)` becomes `jsError msg`; a runtime `TypeError` (e.g. calling
`.trim()` on `null`) becomes `typeError`. -/
inductive Err where
  | typeError
  | jsError (msg : String)
deriving DecidableEq, Repr

/-- JS primitive values as they appear inside a settings JSON payload. -/
inductive JsVal where
  | str (s : String)
  | num (n : Int)
  | boolean (b : Bool)
  | null
deriving DecidableEq, Repr

/-- JavaScript truthiness of a primitive value: `""`, `0`, `false` and
`null` are falsy, everything else is truthy. -/
def JsVal.truthy : JsVal → Bool
  | .str s => s != ""
  | .num n => n != 0
  | .boolean b => b
  | .null => false

/-- JavaScript truthiness of a nullable string (`null`/`undefined` and
`""` are falsy). -/
def strTruthy : Option String → Bool
  | none => false
  | some s => s != ""

/-- Whitespace trimming over the character list (the behaviour of JS
`String.prototype.trim` on the ASCII slugs and emails this system
handles). -/
def trimChars (cs : List Char) : List Char :=
  ((cs.dropWhile Char.isWhitespace).reverse.dropWhile Char.isWhitespace).reverse

/-- JS `.trim()`. -/
def trimStr (s : String) : String := ⟨trimChars s.data⟩

/-- JS `.toUpperCase()` (ASCII). -/
def upperStr (s : String) : String := ⟨s.data.map Char.toUpper⟩

/-- JS `.toLowerCase()` (ASCII). -/
def lowerStr (s : String) : String := ⟨s.data.map Char.toLower⟩

/-- `SiteService.normalizeSiteSlug` applied to an actual string:
`slug.trim().toUpperCase()`. -/
def normalizeSlugStr (s : String) : String := upperStr (trimStr s)

/-- `SiteService.normalizeSiteSlug(slug)` over a nullable argument.  The
body is `slug.trim().toUpperCase()`, so a `null`/`undefined` slug throws a
`TypeError` before any lookup can happen. -/
def normalizeSiteSlug : Option String → Except Err String
  | none => .error .typeError
  | some s => .ok (normalizeSlugStr s)

/-- A row of the SQLite `users` table (src/src/db/schema.sql).  Nullable
columns are `Option`s; `billing_next` timestamps are integers. -/
structure User where
  id : Nat
  role : String := "client"
  email : String
  siteSlug : Option String := none
  plan : String := "essential"
  billingStatus : Option String := some "pending"
  billingNext : Option Int := none
  billingAmount : Option Int := none
  billingCurrency : Option String := some "BRL"
  billingProvider : Option String := some "mercadopago"
  updatedAt : Option String := none
deriving DecidableEq, Repr

/-- The whitelist of active billing statuses (src/unnamed/part_004 line 6
and src/unnamed/part_009 line 73). -/
def activeStatuses : List String :=
  ["approved", "authorized", "accredited", "recurring_charges"]

/-- `SubscriptionService.isActiveBillingStatus(status)`
(src/unnamed/part_004 lines 5-8; an identical private helper exists in
src/unnamed/part_009 lines 72-75): `activeStatuses.includes(status)`.
A `null`/`undefined` status is not an element of the list. -/
def isActiveBillingStatus : Option String → Bool
  | some s => activeStatuses.contains s
  | none => false

/-- `SubscriptionService.getUserById`. -/
def getUserById (users : List User) (userId : Nat) : Option User :=
  users.find? (fun u => u.id == userId)

/-- The mock last-payment object built by `SubscriptionService.getLastPayment`. -/
structure Payment where
  date : Option String
  amount : Int
  currency : Option String
  status : Option String
  provider : Option String
deriving DecidableEq, Repr

/-- `SubscriptionService.getLastPayment`: returns `null` unless the user
exists and `billing_amount` is truthy (non-null and nonzero). -/
def getLastPayment (users : List User) (userId : Nat) : Option Payment :=
  match getUserById users userId with
  | none => none
  | some user =>
    match user.billingAmount with
    | none => none
    | some amt =>
      if amt == 0 then none
      else some { date := user.updatedAt, amount := amt,
                  currency := user.billingCurrency,
                  status := user.billingStatus,
                  provider := user.billingProvider }

/-- Milliseconds per day, for `Date` arithmetic. -/
def msPerDay : Int := 86400000

/-- `GRACE_DAYS = 3`. -/
def graceDays : Int := 3

/-- The object returned by `SubscriptionService.getSubscriptionStatus`. -/
structure SubStatus where
  siteSlug : String
  email : String
  plan : String
  status : Option String
  isActive : Bool
  isVip : Bool
  isOverdue : Bool
  gracePeriodEnd : Option Int
  nextCharge : Option Int
  amount : Option Int
  currency : Option String
  provider : Option String
  lastPayment : Option Payment
deriving DecidableEq, Repr

/-- `SubscriptionService.getSubscriptionStatus(siteSlug, email)`
(src/unnamed/part_004 lines 10-60).  The slug is normalized first (a
nullish slug therefore throws a `TypeError`); when `email` is truthy the
user is looked up by case-insensitive email or by slug, otherwise by slug
only; no match throws `user_not_found`; the result computes
`isActive`, `isVip = plan === 'vip' || isActive`, the overdue flag and the
grace-period end from `billing_next`. -/
def getSubscriptionStatus (users : List User) (siteSlug email : Option String)
    (now : Int) : Except Err SubStatus :=
  match normalizeSiteSlug siteSlug with
  | .error e => .error e
  | .ok normalizedSlug =>
    let user? :=
      if strTruthy email then
        let e := trimStr (lowerStr (email.getD ""))
        users.find? (fun u => lowerStr u.email == lowerStr e || u.siteSlug == some normalizedSlug)
      else
        users.find? (fun u => u.siteSlug == some normalizedSlug)
    match user? with
    | none => .error (.jsError "user_not_found")
    | some user =>
      let isActive := isActiveBillingStatus user.billingStatus
      let isVip := user.plan == "vip" || isActive
      let overdueInfo : Bool × Option Int :=
        match user.billingNext with
        | some next => (decide (next < now), some (next + graceDays * msPerDay))
        | none => (false, none)
      .ok {
        siteSlug := normalizedSlug
        email := user.email
        plan := user.plan
        status := user.billingStatus
        isActive := isActive
        isVip := isVip
        isOverdue := overdueInfo.1
        gracePeriodEnd := overdueInfo.2
        nextCharge := user.billingNext
        amount := user.billingAmount
        currency := user.billingCurrency
        provider := user.billingProvider
        lastPayment := getLastPayment users user.id
      }

/-- A row of the SQLite `sites` table. -/
structure Site where
  slug : String
  active : Bool := true
  notes : Option String := none
  vipPinHash : Option String := none
deriving DecidableEq, Repr

/-- `SiteService.toggleSite(slug, active)`: normalizes the slug, runs
`UPDATE sites SET active = ? WHERE slug = ?`, and throws `site_not_found`
when the update changed no row. -/
def toggleSite (sites : List Site) (slug : String) (active : Bool) :
    Except Err (List Site) :=
  let normalized := normalizeSlugStr slug
  if sites.any (fun s => s.slug == normalized) then
    .ok (sites.map (fun s => if s.slug == normalized then { s with active := active } else s))
  else
    .error (.jsError "site_not_found")

/-- The state touched by the grace-period sweep: the `users` and `sites`
tables. -/
structure GraceDB where
  users : List User
  sites : List Site
deriving DecidableEq, Repr

/-- The sweep's SQL row selection (src/unnamed/part_004 lines 124-130):
`billing_next IS NOT NULL AND billing_next < datetime('now','-3 days')
AND billing_status NOT IN ('cancelled','suspended')`.  Under SQL
three-valued logic a NULL `billing_status` makes the `NOT IN` filter
unknown, so such rows are not selected. -/
def graceSelect (now : Int) (u : User) : Bool :=
  match u.billingNext, u.billingStatus with
  | some next, some st =>
    decide (next < now - graceDays * msPerDay) && !(st == "cancelled" || st == "suspended")
  | _, _ => false

/-- The overdue result set the sweep iterates over. -/
def overdueUsersOf (db : GraceDB) (now : Int) : List User :=
  db.users.filter (graceSelect now)

/-- One iteration of the sweep's for-loop (src/unnamed/part_004 lines
134-152): set the user's `billing_status` to `'cancelled'`, then, when the
user has a truthy `site_slug`, try to deactivate the site, catching and
merely logging any failure (log-and-continue). -/
def graceStep (acc : GraceDB) (u : User) : GraceDB :=
  let users' := acc.users.map
    (fun v => if v.id == u.id then { v with billingStatus := some "cancelled" } else v)
  let sites' :=
    match u.siteSlug with
    | some slug =>
      if slug != "" then
        match toggleSite acc.sites slug false with
        | .ok updated => updated
        | .error _ => acc.sites
      else acc.sites
    | none => acc.sites
  { users := users', sites := sites' }

/-- The aggregate returned by the sweep. -/
structure GraceResult where
  processed : Nat
  deactivatedSites : List String
deriving DecidableEq, Repr

/-- `SubscriptionService.processGracePeriodCheck()` (src/unnamed/part_004
lines 118-158): select the overdue users, run `graceStep` for each, and
return the processed count together with the (truthy) site slugs of the
selected users. -/
def processGracePeriodCheck (db : GraceDB) (now : Int) : GraceDB × GraceResult :=
  let overdueUsers := overdueUsersOf db now
  (overdueUsers.foldl graceStep db,
   { processed := overdueUsers.length,
     deactivatedSites :=
       (overdueUsers.filter (fun u => strTruthy u.siteSlug)).map (fun u => u.siteSlug.getD "") })

/-- The ids of a list of users. -/
def cancelIds (l : List User) : List Nat := l.map (fun u => u.id)

/-- The normalized truthy site slugs of a list of users (the slugs the
sweep passes to `toggleSite`). -/
def deactivateSlugs (l : List User) : List String :=
  l.filterMap (fun u =>
    match u.siteSlug with
    | some slug => if slug != "" then some (normalizeSlugStr slug) else none
    | none => none)

/-- Whether a user's id is among the given ids. -/
def hitId (ids : List Nat) (v : User) : Bool := ids.any (fun i => v.id == i)

/-- Whether a site's slug is among the given normalized slugs. -/
def hitSlug (slugs : List String) (s : Site) : Bool := slugs.any (fun n => s.slug == n)

/-- Whether the sweep's attempt to deactivate this user's site fails
(truthy slug but no matching row in `sites`, so `toggleSite` throws). -/
def toggleFails (sites : List Site) (u : User) : Bool :=
  match u.siteSlug with
  | some slug =>
    slug != "" && !(sites.any (fun s => s.slug == normalizeSlugStr slug))
  | none => false

/-- The `sections` part of a settings payload. -/
structure SectionsObj where
  defs : List JsVal := []
  data : List (String × JsVal) := []
deriving DecidableEq, Repr

/-- The `security` part of a settings payload; `vip_pin` is the key the
service is supposed to redact, other keys are kept opaque. -/
structure SecurityObj where
  vip_pin : Option JsVal := none
  rest : List (String × JsVal) := []
deriving DecidableEq, Repr

/-- A settings JSON payload: the `sections` and `security` keys the
services inspect, plus opaque remaining keys. -/
structure SettingsObj where
  sections : Option SectionsObj := none
  security : Option SecurityObj := none
  rest : List (String × JsVal) := []
deriving DecidableEq, Repr

/-- The default settings structure `{ sections: { defs: [], data: {} } }`
returned whenever no snapshot exists or parsing fails. -/
def defaultSettings : SettingsObj :=
  { sections := some { defs := [], data := [] }, security := none, rest := [] }

/-- The `settings_json` TEXT column: either well-formed JSON for a
settings object or corrupt text on which `JSON.parse` throws. -/
inductive StoredJson where
  | valid (s : SettingsObj)
  | corrupt (raw : String)
deriving DecidableEq, Repr

/-- `JSON.parse` on a stored snapshot, as a total function returning
`none` where the original throws a `SyntaxError`. -/
def parseStored : StoredJson → Option SettingsObj
  | .valid s => some s
  | .corrupt _ => none

/-- A row of the `settings_kv` table. -/
structure SettingsRow where
  siteSlug : String
  json : StoredJson
deriving DecidableEq, Repr

/-- The state touched by the settings service: the `sites` table (for PIN
validation) and the `settings_kv` snapshot log, most recent row first
(`INSERT` prepends, `ORDER BY created_at DESC LIMIT 1` reads the head). -/
structure SettingsDB where
  sites : List Site
  rows : List SettingsRow
deriving DecidableEq, Repr

/-- The bcrypt hash of a PIN.  The model keeps hashing injective and
verification exact, which is all `bcrypt.hash`/`bcrypt.compare` provide
to the logic. -/
def hashPin (pin : String) : String := "bcrypt:" ++ pin

/-- `SiteService.validateVipPin(slug, pin)`: false on a falsy pin, a
missing site, or a falsy stored hash; otherwise compares the pin against
the stored hash (`getSite` normalizes the slug again). -/
def validateVipPin (sites : List Site) (slug : String) (pin : Option String) : Bool :=
  if !(strTruthy pin) then false
  else
    match sites.find? (fun s => s.slug == normalizeSlugStr slug) with
    | none => false
    | some site =>
      match site.vipPinHash with
      | none => false
      | some h => if h == "" then false else h == hashPin (pin.getD "")

/-- The redaction step of `SettingsService.saveSettings`
(src/src/services/settingsService.js lines 56-60):
`if (cleanSettings.security && cleanSettings.security.vip_pin) delete ...`.
The `vip_pin` key is deleted only when its value is truthy. -/
def cleanSettingsOf (settings : SettingsObj) : SettingsObj :=
  match settings.security with
  | some sec =>
    match sec.vip_pin with
    | some v =>
      if v.truthy then { settings with security := some { sec with vip_pin := none } }
      else settings
    | none => settings
  | none => settings

/-- The object returned by `SettingsService.saveSettings`. -/
structure SaveResult where
  id : Nat
  siteSlug : String
deriving DecidableEq, Repr

/-- `SettingsService.saveSettings(siteSlug, settings, pin, requirePin)`
(src/src/services/settingsService.js lines 47-70): validate the PIN when
required (throwing `invalid_pin`), strip a truthy `security.vip_pin` from
the payload, and insert the cleaned snapshot as a new row. -/
def saveSettings (db : SettingsDB) (siteSlug : String) (settings : SettingsObj)
    (pin : Option String) (requirePin : Bool) : Except Err (SettingsDB × SaveResult) :=
  let normalizedSlug := normalizeSlugStr siteSlug
  if requirePin && !(validateVipPin db.sites normalizedSlug pin) then
    .error (.jsError "invalid_pin")
  else
    let clean := cleanSettingsOf settings
    .ok ({ db with rows := { siteSlug := normalizedSlug, json := .valid clean } :: db.rows },
         { id := db.rows.length + 1, siteSlug := normalizedSlug })

/-- `SettingsService.getSettings(siteSlug)`
(src/src/services/settingsService.js lines 5-45): read the latest snapshot
for the normalized slug; return the default structure when there is none
or when `JSON.parse` throws; otherwise delete `security.vip_pin`
unconditionally before returning. -/
def getSettings (db : SettingsDB) (siteSlug : String) : SettingsObj :=
  let normalizedSlug := normalizeSlugStr siteSlug
  match (db.rows.filter (fun r => r.siteSlug == normalizedSlug)).head? with
  | none => defaultSettings
  | some row =>
    match parseStored row.json with
    | none => defaultSettings
    | some settings =>
      match settings.security with
      | some sec => { settings with security := some { sec with vip_pin := none } }
      | none => settings

/-- The JWT payload fields the settings route reads (`req.user`). -/
structure AuthUser where
  id : Nat := 0
  email : String := ""
  role : String := "client"
  siteSlug : Option String := none
  plan : String := "essential"
deriving DecidableEq, Repr

/-- The HTTP outcomes of the POST /api/settings handler. -/
inductive PostSettingsResult where
  | badRequest (err : String)
  | forbidden (err : String)
  | ok (r : SaveResult)
  | internalError
deriving DecidableEq, Repr

/-- The POST /api/settings handler (settings router in the
src/src/routes/feedbacks.js concatenation, lines 444-487), after
`verifyToken` has populated `req.user`: reject a missing site or settings
body, reject a non-admin non-VIP caller with `vip_or_admin_required`
before any PIN is consulted, and otherwise call `saveSettings` with
`requirePin = !isAdmin && isVip`, mapping a thrown `invalid_pin` to a 403
and any other throw to a 500. -/
def postSettingsHandler (db : SettingsDB) (user : AuthUser) (site : Option String)
    (settings : Option SettingsObj) (pin : Option String) :
    SettingsDB × PostSettingsResult :=
  if !(strTruthy site) || settings.isNone then
    (db, .badRequest "site_and_settings_required")
  else
    let isAdmin := user.role == "admin"
    let isVip := user.plan == "vip"
    let requirePin := !isAdmin && isVip
    if !isAdmin && !isVip then
      (db, .forbidden "vip_or_admin_required")
    else
      match saveSettings db (site.getD "") (settings.getD defaultSettings) pin requirePin with
      | .ok (db', r) => (db', .ok r)
      | .error (.jsError m) =>
        if m == "invalid_pin" then (db, .forbidden "invalid_pin") else (db, .internalError)
      | .error .typeError => (db, .internalError)

/-- A row of the SQLite `feedbacks` table (src/src/db/schema.sql); the
rating is kept as a rational because SQLite stores a non-integer JS number
bound to the INTEGER-affinity column as a REAL. -/
structure FeedbackRow where
  id : Nat
  siteSlug : String
  name : Option String := none
  email : Option String := none
  phone : Option String := none
  rating : ℚ
  comment : String
  approved : Bool := false
deriving DecidableEq, Repr

/-- The request payload of `FeedbackService.createFeedback`; `rating` is
a nullable JS number, `comment` a nullable string. -/
structure FeedbackInput where
  siteSlug : String
  name : Option String := none
  email : Option String := none
  phone : Option String := none
  rating : Option ℚ := none
  comment : Option String := none
deriving DecidableEq, Repr

/-- JavaScript truthiness of the nullable `rating` number (`null`,
`undefined` and `0` are falsy). -/
def ratingTruthy : Option ℚ → Bool
  | none => false
  | some q => q != 0

/-- `name?.trim() || null` (and similar optional-chaining normalizations
in `createFeedback`). -/
def optTrimOrNull (s : Option String) : Option String :=
  match s with
  | none => none
  | some t => if trimStr t == "" then none else some (trimStr t)

/-- `email?.toLowerCase().trim() || null`. -/
def optLowerTrimOrNull (s : Option String) : Option String :=
  match s with
  | none => none
  | some t => if trimStr (lowerStr t) == "" then none else some (trimStr (lowerStr t))

/-- The object returned by `FeedbackService.createFeedback`. -/
structure CreateResult where
  id : Nat
  siteSlug : String
  rating : ℚ
  comment : String
  approved : Bool
deriving DecidableEq, Repr

/-- `FeedbackService.createFeedback(feedbackData)`
(src/src/services/feedbackService.js lines 5-44): throws
`rating_and_comment_required` when `rating` or `comment` is falsy, then
`rating_must_be_between_1_and_5` when `rating < 1 || rating > 5` (no
integrality check), and otherwise inserts the row with `approved = 0`.
`nextId` stands for the autoincrement id of the insert. -/
def createFeedback (feedbacks : List FeedbackRow) (nextId : Nat)
    (data : FeedbackInput) : List FeedbackRow × Except Err CreateResult :=
  let normalizedSlug := normalizeSlugStr data.siteSlug
  if !(ratingTruthy data.rating) || !(strTruthy data.comment) then
    (feedbacks, .error (.jsError "rating_and_comment_required"))
  else if data.rating.getD 0 < 1 ∨ data.rating.getD 0 > 5 then
    (feedbacks, .error (.jsError "rating_must_be_between_1_and_5"))
  else
    let row : FeedbackRow := {
      id := nextId
      siteSlug := normalizedSlug
      name := optTrimOrNull data.name
      email := optLowerTrimOrNull data.email
      phone := optTrimOrNull data.phone
      rating := data.rating.getD 0
      comment := trimStr (data.comment.getD "")
      approved := false }
    (row :: feedbacks,
     .ok { id := nextId, siteSlug := normalizedSlug, rating := data.rating.getD 0,
           comment := data.comment.getD "", approved := false })

/-- The object returned by `FeedbackService.approveFeedback`. -/
structure ApproveResult where
  id : Nat
  approved : Bool
deriving DecidableEq, Repr

/-- `FeedbackService.approveFeedback(id, approved, userId)`
(src/src/services/feedbackService.js lines 92-111): runs
`UPDATE feedbacks SET approved = ? WHERE id = ?`, throws
`feedback_not_found` when the update matched no row (`changes === 0`),
and otherwise re-reads and returns the row.  The third JS parameter is an
unused `userId`, not a public-visibility flag; the SQLite `feedbacks`
table has no `is_public` column. -/
def approveFeedback (feedbacks : List FeedbackRow) (id : Nat) (approved : Bool) :
    List FeedbackRow × Except Err ApproveResult :=
  let updated := feedbacks.map
    (fun f => if f.id == id then { f with approved := approved } else f)
  match updated.find? (fun f => f.id == id) with
  | some f => (updated, .ok { id := f.id, approved := f.approved })
  | none => (updated, .error (.jsError "feedback_not_found"))

/-- A row of the Drizzle `feedbacks` table (src/shared/schema.ts lines
35-45), which does carry an `is_public` column. -/
structure DFeedback where
  id : Nat
  siteSlug : String
  name : Option String := none
  email : Option String := none
  rating : Int
  comment : String
  approved : Bool := false
  isPublic : Bool := false
  createdAt : Int := 0
deriving DecidableEq, Repr

/-- `updateFeedbackApproval(id, approved, isPublic = false)`
(src/server.mjs lines 2537-2541): a single Drizzle
`UPDATE feedbacks SET approved, is_public WHERE id = ?` returning void.
There is no existence check: an absent id is a silent no-op, and the
PATCH /api/feedbacks/:id/approval route (src/server/routes.ts lines
170-186) answers `ok: true` regardless. -/
def updateFeedbackApproval (feedbacks : List DFeedback) (id : Nat)
    (approved isPublic : Bool) : List DFeedback :=
  feedbacks.map (fun f =>
    if f.id == id then { f with approved := approved, isPublic := isPublic } else f)

/-! ## Example data used by witnesses and counterexamples -/

/-- An example user with plan `vip` and cancelled billing. -/
def exUserVipCancelled : User :=
  { id := 1, email := "vip@example.com", siteSlug := some "DEMO",
    plan := "vip", billingStatus := some "cancelled" }

/-- An example user with plan `essential` and approved billing. -/
def exUserEssentialApproved : User :=
  { id := 2, email := "ess@example.com", siteSlug := some "SECOND",
    plan := "essential", billingStatus := some "approved" }

/-- The status object returned for `exUserVipCancelled`. -/
def stVipCancelled : SubStatus :=
  { siteSlug := "DEMO", email := "vip@example.com", plan := "vip",
    status := some "cancelled", isActive := false, isVip := true,
    isOverdue := false, gracePeriodEnd := none, nextCharge := none,
    amount := none, currency := some "BRL", provider := some "mercadopago",
    lastPayment := none }

/-- The status object returned for `exUserEssentialApproved`. -/
def stEssentialApproved : SubStatus :=
  { siteSlug := "SECOND", email := "ess@example.com", plan := "essential",
    status := some "approved", isActive := true, isVip := true,
    isOverdue := false, gracePeriodEnd := none, nextCharge := none,
    amount := none, currency := some "BRL", provider := some "mercadopago",
    lastPayment := none }

/-- A user findable only by email. -/
def exUserByEmail : User :=
  { id := 7, email := "client@example.com", siteSlug := some "CLI",
    plan := "essential", billingStatus := some "approved" }

/-- A site with a VIP PIN set. -/
def exSite : Site := { slug := "DEMO", active := true, vipPinHash := some (hashPin "1234") }

/-- A settings state with one pinned site and an empty snapshot log. -/
def exSettingsDB : SettingsDB := { sites := [exSite], rows := [] }

/-- An empty settings state. -/
def emptySettingsDB : SettingsDB := { sites := [], rows := [] }

/-- A payload whose `security.vip_pin` key holds the falsy value `""`. -/
def exFalsyPinPayload : SettingsObj := { security := some { vip_pin := some (.str "") } }

/-- A payload whose `security.vip_pin` key holds a truthy value. -/
def exTruthyPinPayload : SettingsObj := { security := some { vip_pin := some (.str "9999") } }

/-- A settings state whose stored snapshot contains a truthy `vip_pin`. -/
def exDbTruthyPin : SettingsDB :=
  { sites := [], rows := [{ siteSlug := "DEMO", json := .valid exTruthyPinPayload }] }

/-- A settings state whose latest snapshot is corrupt text. -/
def exCorruptDB : SettingsDB :=
  { sites := [], rows := [{ siteSlug := "DEMO", json := .corrupt "not json" }] }

/-- An authenticated non-admin, non-VIP client. -/
def exClient : AuthUser := { id := 3, email := "c@x.com", role := "client", plan := "essential" }

/-- An authenticated non-admin VIP client. -/
def exVipClient : AuthUser := { id := 4, email := "v@x.com", role := "client", plan := "vip" }

/-- An authenticated admin. -/
def exAdmin : AuthUser := { id := 5, email := "a@x.com", role := "admin", plan := "essential" }

/-- A user 10 days overdue with an active billing status and a site. -/
def exOverdueUser : User :=
  { id := 11, email := "due@example.com", siteSlug := some "DEMO", plan := "essential",
    billingStatus := some "approved", billingNext := some (-(10 * msPerDay)) }

/-- A user who becomes overdue only at a later sweep time. -/
def exLaterUser : User :=
  { id := 12, email := "later@example.com", siteSlug := none, plan := "essential",
    billingStatus := some "approved", billingNext := some (5 * msPerDay) }

/-- A sweep state with one currently-overdue user and one later-overdue
user. -/
def exGraceDB2 : GraceDB :=
  { users := [exOverdueUser, exLaterUser], sites := [{ slug := "DEMO" }] }

/-- An overdue user whose `billing_status` is NULL. -/
def exNullStatusUser : User :=
  { id := 9, email := "null@example.com", siteSlug := some "NULLS", plan := "essential",
    billingStatus := none, billingNext := some (-(10 * msPerDay)) }

/-- A sweep state containing only the NULL-status overdue user. -/
def exNullStatusDB : GraceDB :=
  { users := [exNullStatusUser], sites := [{ slug := "NULLS" }] }

/-- An overdue user whose site slug matches no row of `sites`, so the
sweep's `toggleSite` call throws for them. -/
def exGoneUser : User :=
  { id := 13, email := "gone@example.com", siteSlug := some "GONE", plan := "essential",
    billingStatus := some "approved", billingNext := some (-(10 * msPerDay)) }

/-- A sweep state where the first overdue user's site deactivation fails
and the second one's succeeds. -/
def exFailDB : GraceDB :=
  { users := [exGoneUser, exOverdueUser], sites := [{ slug := "DEMO" }] }

/-- A SQLite feedback row. -/
def exFRow : FeedbackRow := { id := 1, siteSlug := "DEMO", rating := 5, comment := "bom" }

/-- A Drizzle feedback row, unapproved and private. -/
def exDRow : DFeedback := { id := 1, siteSlug := "DEMO", rating := 5, comment := "otimo" }

/-- A createFeedback payload with the non-integer rating 2.5. -/
def inpHalfRating : FeedbackInput :=
  { siteSlug := "DEMO", rating := some (mkRat 5 2), comment := some "bom" }

/-- A createFeedback payload with the falsy rating 0. -/
def inpZeroRating : FeedbackInput :=
  { siteSlug := "DEMO", rating := some 0, comment := some "bom" }

/-- A well-formed createFeedback payload. -/
def inpGood : FeedbackInput :=
  { siteSlug := "DEMO", rating := some 5, comment := some "bom" }

/-! ## Theorems -/

/-- A list map whose function fixes every element of the list is the
identity. -/
theorem listMapEqSelf {α : Type} (l : List α) (f : α → α) (h : ∀ a ∈ l, f a = a) :
    l.map f = l := by
  induction l with
  | nil => rfl
  | cons x xs ih =>
    rw [List.map_cons, h x (List.mem_cons_self x xs),
        ih (fun a ha => h a (List.mem_cons_of_mem x ha))]

/-- Fusion of two list maps through a pointwise identity. -/
theorem listMapMapEq {α : Type} (l : List α) (f g h : α → α)
    (hp : ∀ a, g (f a) = h a) : (l.map f).map g = l.map h := by
  induction l with
  | nil => rfl
  | cons x xs ih => simp only [List.map_cons, hp, ih]

/-- The first component of `approveFeedback` is always the updated table
(the SQL UPDATE runs before the existence check). -/
theorem approveFeedback_fst (l : List FeedbackRow) (id : Nat) (a : Bool) :
    (approveFeedback l id a).1
      = l.map (fun f => if f.id == id then { f with approved := a } else f) := by
  simp only [approveFeedback]
  split <;> rfl

/-- C5: `isActiveBillingStatus(status)` returns true if and only if the
status is one of the four whitelisted strings; every other value,
including `pending`, `cancelled`, `suspended` or a null/unset status,
yields false. -/
theorem C5_isActiveBillingStatus_whitelist (status : Option String) :
    isActiveBillingStatus status = true ↔
      (status = some "approved" ∨ status = some "authorized" ∨
       status = some "accredited" ∨ status = some "recurring_charges") := by
  cases status with
  | none => simp [isActiveBillingStatus]
  | some s => simp [isActiveBillingStatus, activeStatuses]

/-- C1: whenever `getSubscriptionStatus` finds a user, the reported
`isVip` flag is the boolean OR of `plan === 'vip'` and
`isActiveBillingStatus(billingStatus)`; in particular a `vip`-plan user
with lapsed billing, and an `essential`-plan user with an active billing
status, are both reported VIP. -/
theorem C1_isVip_or_semantics (users : List User) (siteSlug email : Option String)
    (now : Int) (st : SubStatus)
    (h : getSubscriptionStatus users siteSlug email now = .ok st) :
    st.isVip = (st.plan == "vip" || isActiveBillingStatus st.status)
    ∧ (st.plan = "vip" → st.isVip = true)
    ∧ (isActiveBillingStatus st.status = true → st.isVip = true) := by
  cases siteSlug with
  | none => simp [getSubscriptionStatus, normalizeSiteSlug] at h
  | some s =>
    simp only [getSubscriptionStatus, normalizeSiteSlug] at h
    split at h
    · exact absurd h (by simp)
    · rename_i user heq
      simp only [Except.ok.injEq] at h
      subst h
      refine ⟨rfl, ?_, ?_⟩
      · intro hp
        have hp' : user.plan = "vip" := hp
        simp [hp']
      · intro ha
        have ha' : isActiveBillingStatus user.billingStatus = true := ha
        simp [ha']

/-- Witness for C1: on a concrete two-user table, the lookup finds the
lapsed-billing `vip` user and the active-billing `essential` user and,
by `C1_isVip_or_semantics`, reports both as VIP. -/
theorem C1_isVip_or_semantics_witness :
    getSubscriptionStatus [exUserVipCancelled, exUserEssentialApproved]
        (some "DEMO") none 0 = .ok stVipCancelled
    ∧ stVipCancelled.isVip = true
    ∧ getSubscriptionStatus [exUserVipCancelled, exUserEssentialApproved]
        (some "SECOND") none 0 = .ok stEssentialApproved
    ∧ stEssentialApproved.isVip = true := by
  have h1 : getSubscriptionStatus [exUserVipCancelled, exUserEssentialApproved]
      (some "DEMO") none 0 = .ok stVipCancelled := by rfl
  have h2 : getSubscriptionStatus [exUserVipCancelled, exUserEssentialApproved]
      (some "SECOND") none 0 = .ok stEssentialApproved := by rfl
  refine ⟨h1, ?_, h2, ?_⟩
  · exact (C1_isVip_or_semantics _ _ _ _ _ h1).2.1 rfl
  · exact (C1_isVip_or_semantics _ _ _ _ _ h2).2.2 rfl

/-- C7: calling `getSubscriptionStatus` with a null site slug and the
email of an existing user does not succeed: `normalizeSiteSlug(null)`
evaluates `null.trim()` and throws a `TypeError` before any user lookup,
even though the routes (src/src/server.js lines 127 and 154,
src/unnamed/part_007 line 19) call it exactly this way and the spec names
the parameter `siteSlugOrNull`. -/
theorem C7_null_slug_typeError :
    getSubscriptionStatus [exUserByEmail] none (some "client@example.com") 0
      = .error .typeError
    ∧ exUserByEmail.email = "client@example.com" := ⟨rfl, rfl⟩

/-- C4: a settings write by an authenticated non-admin non-VIP user fails
with `vip_or_admin_required` regardless of the PIN supplied (the PIN is
never consulted); a non-admin VIP user whose PIN does not validate fails
with `invalid_pin`; an admin's write is accepted unconditionally, with no
PIN check, for every PIN value. -/
theorem C4_settings_write_authorization (db : SettingsDB) (user : AuthUser)
    (site : Option String) (settings : Option SettingsObj) (pin : Option String)
    (hsite : strTruthy site = true) (hset : settings.isNone = false) :
    (user.role ≠ "admin" → user.plan ≠ "vip" →
      postSettingsHandler db user site settings pin = (db, .forbidden "vip_or_admin_required"))
    ∧ (user.role ≠ "admin" → user.plan = "vip" →
        validateVipPin db.sites (normalizeSlugStr (site.getD "")) pin = false →
        postSettingsHandler db user site settings pin = (db, .forbidden "invalid_pin"))
    ∧ (user.role = "admin" →
        postSettingsHandler db user site settings pin =
          ({ db with rows := { siteSlug := normalizeSlugStr (site.getD ""),
                               json := .valid (cleanSettingsOf (settings.getD defaultSettings)) }
                     :: db.rows },
           .ok { id := db.rows.length + 1, siteSlug := normalizeSlugStr (site.getD "") })) := by
  refine ⟨?_, ?_, ?_⟩
  · intro hr hp
    simp [postSettingsHandler, hsite, hset, hr, hp]
  · intro hr hp hval
    simp [postSettingsHandler, saveSettings, hsite, hset, hr, hp, hval]
  · intro hr
    simp [postSettingsHandler, saveSettings, hsite, hset, hr]

/-- Witness for C4: on a concrete pinned site, an essential-plan client is
rejected with `vip_or_admin_required` even with the correct PIN, a VIP
client with a wrong PIN gets `invalid_pin`, and an admin with no PIN at
all succeeds. -/
theorem C4_settings_write_authorization_witness :
    postSettingsHandler exSettingsDB exClient (some "DEMO") (some defaultSettings) (some "1234")
      = (exSettingsDB, .forbidden "vip_or_admin_required")
    ∧ postSettingsHandler exSettingsDB exVipClient (some "DEMO") (some defaultSettings) (some "9999")
      = (exSettingsDB, .forbidden "invalid_pin")
    ∧ postSettingsHandler exSettingsDB exAdmin (some "DEMO") (some defaultSettings) none
      = ({ sites := [exSite],
           rows := [{ siteSlug := "DEMO", json := .valid defaultSettings }] },
         .ok { id := 1, siteSlug := "DEMO" }) := by
  have h1 := (C4_settings_write_authorization exSettingsDB exClient (some "DEMO")
      (some defaultSettings) (some "1234") (by decide) (by decide)).1 (by decide) (by decide)
  have h2 := (C4_settings_write_authorization exSettingsDB exVipClient (some "DEMO")
      (some defaultSettings) (some "9999") (by decide) (by decide)).2.1 (by decide) rfl (by decide)
  have h3 := (C4_settings_write_authorization exSettingsDB exAdmin (some "DEMO")
      (some defaultSettings) none (by decide) (by decide)).2.2 rfl
  exact ⟨h1, h2, h3.trans (by decide)⟩

/-- C3 counterexample: the redaction in `saveSettings` deletes
`security.vip_pin` only when the value is truthy, so a payload carrying
the falsy pin value `""` is persisted with the `security.vip_pin` key
still present, contradicting the claim that the stored snapshot never
contains that key. -/
theorem C3_counterexample :
    saveSettings emptySettingsDB "DEMO" exFalsyPinPayload none false =
      .ok ({ sites := [], rows := [{ siteSlug := "DEMO", json := .valid exFalsyPinPayload }] },
           { id := 1, siteSlug := "DEMO" })
    ∧ exFalsyPinPayload.security = some { vip_pin := some (.str ""), rest := [] } := ⟨rfl, rfl⟩

/-- C3 (amended): the snapshot persisted by `saveSettings` is the cleaned
payload, the cleaned payload never carries a truthy `security.vip_pin`
value (only a falsy one such as `""` can survive), and the object returned
by `getSettings` never carries a `security.vip_pin` key at all. -/
theorem C3_vip_pin_redaction :
    (∀ db siteSlug settings pin requirePin db' r,
       saveSettings db siteSlug settings pin requirePin = .ok (db', r) →
       db'.rows = { siteSlug := normalizeSlugStr siteSlug,
                    json := .valid (cleanSettingsOf settings) } :: db.rows)
    ∧ (∀ settings sec v, (cleanSettingsOf settings).security = some sec →
         sec.vip_pin = some v → v.truthy = false)
    ∧ (∀ db siteSlug sec, (getSettings db siteSlug).security = some sec →
         sec.vip_pin = none) := by
  refine ⟨?_, ?_, ?_⟩
  · intro db siteSlug settings pin requirePin db' r h
    simp only [saveSettings] at h
    split at h
    · exact absurd h (by simp)
    · simp only [Except.ok.injEq, Prod.mk.injEq] at h
      rw [← h.1]
  · intro settings sec v hsec hpin
    obtain ⟨sections, security, rest⟩ := settings
    cases security with
    | none => exact Option.noConfusion hsec
    | some sec0 =>
      obtain ⟨vp, rest0⟩ := sec0
      cases vp with
      | none =>
        have h1 : (⟨none, rest0⟩ : SecurityObj) = sec := Option.some.inj hsec
        rw [← h1] at hpin
        exact Option.noConfusion hpin
      | some v0 =>
        have hred : (if v0.truthy = true
            then (⟨sections, some ⟨none, rest0⟩, rest⟩ : SettingsObj)
            else ⟨sections, some ⟨some v0, rest0⟩, rest⟩).security = some sec := hsec
        split at hred
        · have h1 := Option.some.inj hred
          rw [← h1] at hpin
          exact Option.noConfusion hpin
        · rename_i ht
          have h1 := Option.some.inj hred
          rw [← h1] at hpin
          have h2 := Option.some.inj hpin
          rw [← h2]
          simpa using ht
  · intro db siteSlug sec h
    simp only [getSettings] at h
    split at h
    · simp [defaultSettings] at h
    · split at h
      · simp [defaultSettings] at h
      · split at h
        · simp only [Option.some.injEq] at h
          rw [← h]
        · rename_i hsec0
          rw [hsec0] at h
          exact absurd h (by simp)

/-- Witness for C3: a concrete save persists exactly the cleaned payload,
the surviving `vip_pin` value `""` is falsy, and reading a snapshot that
does carry a truthy `vip_pin` returns a security object with the key
removed. -/
theorem C3_vip_pin_redaction_witness :
    saveSettings emptySettingsDB "DEMO" exFalsyPinPayload none false =
      .ok ({ sites := [], rows := [{ siteSlug := "DEMO", json := .valid exFalsyPinPayload }] },
           { id := 1, siteSlug := "DEMO" })
    ∧ (JsVal.str "").truthy = false
    ∧ (getSettings exDbTruthyPin "DEMO").security = some { vip_pin := none, rest := [] }
    ∧ (({ vip_pin := none, rest := [] } : SecurityObj)).vip_pin = none := by
  have hsave := C3_vip_pin_redaction.1 emptySettingsDB "DEMO" exFalsyPinPayload none false
      { sites := [], rows := [{ siteSlug := "DEMO", json := .valid exFalsyPinPayload }] }
      { id := 1, siteSlug := "DEMO" } rfl
  have hfalsy := C3_vip_pin_redaction.2.1 exFalsyPinPayload
      { vip_pin := some (.str ""), rest := [] } (.str "") rfl rfl
  have hget := C3_vip_pin_redaction.2.2 exDbTruthyPin "DEMO"
      { vip_pin := none, rest := [] } rfl
  exact ⟨rfl, hfalsy, rfl, hget⟩

/-- C10: `getSettings` is total: when no snapshot row exists for the
normalized slug it returns the default `{ sections: { defs: [], data: {} } }`
object, and when the latest row's JSON does not parse it also returns the
default object instead of raising (the Lean embedding returns a plain
`SettingsObj`, mirroring that both failure paths are caught). -/
theorem C10_getSettings_total (db : SettingsDB) (siteSlug : String) :
    ((db.rows.filter (fun r => r.siteSlug == normalizeSlugStr siteSlug)).head? = none →
      getSettings db siteSlug = defaultSettings)
    ∧ (∀ row raw,
        (db.rows.filter (fun r => r.siteSlug == normalizeSlugStr siteSlug)).head? = some row →
        row.json = .corrupt raw → getSettings db siteSlug = defaultSettings) := by
  constructor
  · intro h
    simp [getSettings, h]
  · intro row raw h hj
    simp [getSettings, h, hj, parseStored]

/-- Witness for C10: a site with no snapshot and a site whose only
snapshot is corrupt text both read back as the default object. -/
theorem C10_getSettings_total_witness :
    getSettings exCorruptDB "DEMO" = defaultSettings
    ∧ getSettings exCorruptDB "OTHER" = defaultSettings := by
  have h1 := (C10_getSettings_total exCorruptDB "DEMO").2
      { siteSlug := "DEMO", json := .corrupt "not json" } "not json" rfl rfl
  have h2 := (C10_getSettings_total exCorruptDB "OTHER").1 rfl
  exact ⟨h1, h2⟩

/-- C6 counterexample: the only operation in the repository that sets both
the approved and the public-visibility flag, `updateFeedbackApproval`
(src/server.mjs), performs no existence check: applied to a table without
the requested id it completes as a silent no-op instead of failing with
`FeedbackNotFound` (its return type has no error channel, and the PATCH
route answers `ok: true`).  The claim's failure behaviour belongs only to
`FeedbackService.approveFeedback`, which sets no public flag. -/
theorem C6_counterexample :
    updateFeedbackApproval [exDRow] 2 true true = [exDRow]
    ∧ ([exDRow].all (fun f => f.id != 2)) = true := ⟨rfl, rfl⟩

/-- C6 (amended): `updateFeedbackApproval(id, approved, isPublic)`
idempotently sets both flags of every feedback with the given id and is a
silent no-op (not a `FeedbackNotFound` failure) when no feedback has that
id; the `FeedbackNotFound` failure belongs to
`FeedbackService.approveFeedback`, which sets only the approved flag and
leaves the table unchanged when it fails. -/
theorem C6_feedback_approval (l : List DFeedback) (id : Nat) (a p : Bool)
    (l2 : List FeedbackRow) (id2 : Nat) (a2 : Bool) :
    updateFeedbackApproval (updateFeedbackApproval l id a p) id a p
      = updateFeedbackApproval l id a p
    ∧ (∀ f, f ∈ updateFeedbackApproval l id a p → f.id = id →
        f.approved = a ∧ f.isPublic = p)
    ∧ (l.all (fun f => f.id != id) = true → updateFeedbackApproval l id a p = l)
    ∧ (l2.all (fun f => f.id != id2) = true →
        approveFeedback l2 id2 a2 = (l2, .error (.jsError "feedback_not_found")))
    ∧ (approveFeedback (approveFeedback l2 id2 a2).1 id2 a2).1
        = (approveFeedback l2 id2 a2).1 := by
  refine ⟨?_, ?_, ?_, ?_, ?_⟩
  · simp only [updateFeedbackApproval]
    apply listMapMapEq
    intro f
    by_cases hf : (f.id == id) = true
    · simp [hf]
    · simp [hf]
  · intro f hf hid
    simp only [updateFeedbackApproval, List.mem_map] at hf
    obtain ⟨f0, hf0, heq⟩ := hf
    by_cases h0 : (f0.id == id) = true
    · rw [if_pos h0] at heq
      rw [← heq]
      exact ⟨rfl, rfl⟩
    · rw [if_neg h0] at heq
      rw [← heq] at hid
      simp only [beq_iff_eq] at h0
      exact absurd hid h0
  · intro hall
    apply listMapEqSelf
    intro f hf
    have h1 := List.all_eq_true.mp hall f hf
    have hne : f.id ≠ id := by simpa using h1
    simp [hne]
  · intro hall
    have hupd : l2.map (fun f => if f.id == id2 then { f with approved := a2 } else f) = l2 := by
      apply listMapEqSelf
      intro f hf
      have h1 := List.all_eq_true.mp hall f hf
      have hne : f.id ≠ id2 := by simpa using h1
      simp [hne]
    have hfind : l2.find? (fun f => f.id == id2) = none := by
      rw [List.find?_eq_none]
      intro f hf
      have h1 := List.all_eq_true.mp hall f hf
      simpa using h1
    simp only [approveFeedback, hupd, hfind]
  · rw [approveFeedback_fst, approveFeedback_fst]
    apply listMapMapEq
    intro f
    by_cases hf : (f.id == id2) = true
    · simp [hf]
    · simp [hf]

/-- Witness for C6: on concrete one-row tables, `updateFeedbackApproval`
sets both flags of the matching row, no-ops on an absent id, and
`approveFeedback` fails with `feedback_not_found` on an absent id leaving
the table unchanged. -/
theorem C6_feedback_approval_witness :
    updateFeedbackApproval [exDRow] 1 true true
      = [{ exDRow with approved := true, isPublic := true }]
    ∧ ({ exDRow with approved := true, isPublic := true } : DFeedback).approved = true
    ∧ ({ exDRow with approved := true, isPublic := true } : DFeedback).isPublic = true
    ∧ updateFeedbackApproval [exDRow] 2 true true = [exDRow]
    ∧ approveFeedback [exFRow] 9 true = ([exFRow], .error (.jsError "feedback_not_found")) := by
  have h := C6_feedback_approval [exDRow] 1 true true [exFRow] 9 true
  have h2 := C6_feedback_approval [exDRow] 2 true true [exFRow] 9 true
  refine ⟨rfl, ?_, ?_, h2.2.2.1 (by decide), h.2.2.2.1 (by decide)⟩
  · exact (h.2.1 _ (by decide) rfl).1
  · exact (h.2.1 _ (by decide) rfl).2

/-- C9 counterexample: `createFeedback` performs no integrality check, so
the non-integer rating 2.5 is accepted and stored (the claim requires the
invalid-rating failure), and the out-of-range rating 0 is falsy and is
reported as the missing-fields error `rating_and_comment_required`, not as
the invalid-rating error the claim requires for every rating outside
[1,5]. -/
theorem C9_counterexample :
    (createFeedback [] 1 inpHalfRating).2
      = .ok { id := 1, siteSlug := "DEMO", rating := mkRat 5 2, comment := "bom", approved := false }
    ∧ (createFeedback [] 1 inpZeroRating).2
      = .error (.jsError "rating_and_comment_required") := ⟨rfl, rfl⟩

/-- C9 (amended): `createFeedback` fails with the missing-fields error
`rating_and_comment_required` exactly when the rating is falsy (absent or
0) or the comment is falsy (absent or empty); it fails with the
invalid-rating error exactly when both are truthy and the rating is below
1 or above 5 (integrality is never checked, so non-integer ratings inside
[1,5] are accepted); every feedback it successfully creates is stored and
returned with `approved = false`. -/
theorem C9_createFeedback_validation (feedbacks : List FeedbackRow) (nextId : Nat)
    (data : FeedbackInput) :
    ((createFeedback feedbacks nextId data).2 = .error (.jsError "rating_and_comment_required")
       ↔ (ratingTruthy data.rating = false ∨ strTruthy data.comment = false))
    ∧ ((createFeedback feedbacks nextId data).2 = .error (.jsError "rating_must_be_between_1_and_5")
       ↔ (ratingTruthy data.rating = true ∧ strTruthy data.comment = true
           ∧ (data.rating.getD 0 < 1 ∨ data.rating.getD 0 > 5)))
    ∧ (∀ r, (createFeedback feedbacks nextId data).2 = .ok r → r.approved = false)
    ∧ (∀ r, (createFeedback feedbacks nextId data).2 = .ok r →
        (createFeedback feedbacks nextId data).1 =
          { id := nextId, siteSlug := normalizeSlugStr data.siteSlug,
            name := optTrimOrNull data.name, email := optLowerTrimOrNull data.email,
            phone := optTrimOrNull data.phone, rating := data.rating.getD 0,
            comment := trimStr (data.comment.getD ""), approved := false } :: feedbacks) := by
  by_cases c1 : (!(ratingTruthy data.rating) || !(strTruthy data.comment)) = true
  · have hres : (createFeedback feedbacks nextId data).2
        = .error (.jsError "rating_and_comment_required") := by
      simp only [createFeedback]
      rw [if_pos c1]
    have hcond : ratingTruthy data.rating = false ∨ strTruthy data.comment = false := by
      cases ha : ratingTruthy data.rating
      · exact Or.inl rfl
      · cases hb : strTruthy data.comment
        · exact Or.inr rfl
        · rw [ha, hb] at c1
          simp at c1
    refine ⟨iff_of_true hres hcond, ?_, ?_, ?_⟩
    · constructor
      · intro h
        rw [hres] at h
        injection h with h
        injection h with h
        exact absurd h (by decide)
      · intro hc
        exfalso
        rcases hcond with h | h
        · rw [hc.1] at h
          exact Bool.noConfusion h
        · rw [hc.2.1] at h
          exact Bool.noConfusion h
    · intro r h
      rw [hres] at h
      exact Except.noConfusion h
    · intro r h
      rw [hres] at h
      exact Except.noConfusion h
  · have hcond1 : ratingTruthy data.rating = true ∧ strTruthy data.comment = true := by
      cases ha : ratingTruthy data.rating
      · rw [ha] at c1
        simp at c1
      · cases hb : strTruthy data.comment
        · rw [ha, hb] at c1
          simp at c1
        · exact ⟨rfl, rfl⟩
    by_cases c2 : (data.rating.getD 0 < 1 ∨ data.rating.getD 0 > 5)
    · have hres : (createFeedback feedbacks nextId data).2
          = .error (.jsError "rating_must_be_between_1_and_5") := by
        simp only [createFeedback]
        rw [if_neg c1, if_pos c2]
      refine ⟨?_, iff_of_true hres ⟨hcond1.1, hcond1.2, c2⟩, ?_, ?_⟩
      · constructor
        · intro h
          rw [hres] at h
          injection h with h
          injection h with h
          exact absurd h (by decide)
        · intro hc
          exfalso
          rcases hc with h | h
          · rw [hcond1.1] at h
            exact Bool.noConfusion h
          · rw [hcond1.2] at h
            exact Bool.noConfusion h
      · intro r h
        rw [hres] at h
        exact Except.noConfusion h
      · intro r h
        rw [hres] at h
        exact Except.noConfusion h
    · have hres : (createFeedback feedbacks nextId data).2
          = .ok { id := nextId, siteSlug := normalizeSlugStr data.siteSlug,
                  rating := data.rating.getD 0, comment := data.comment.getD "",
                  approved := false } := by
        simp only [createFeedback]
        rw [if_neg c1, if_neg c2]
      have hrows : (createFeedback feedbacks nextId data).1 =
          { id := nextId, siteSlug := normalizeSlugStr data.siteSlug,
            name := optTrimOrNull data.name, email := optLowerTrimOrNull data.email,
            phone := optTrimOrNull data.phone, rating := data.rating.getD 0,
            comment := trimStr (data.comment.getD ""), approved := false } :: feedbacks := by
        simp only [createFeedback]
        rw [if_neg c1, if_neg c2]
      refine ⟨?_, ?_, ?_, fun r _ => hrows⟩
      · refine iff_of_false ?_ ?_
        · intro h
          rw [hres] at h
          exact Except.noConfusion h
        · intro hc
          rcases hc with h | h
          · rw [hcond1.1] at h
            exact Bool.noConfusion h
          · rw [hcond1.2] at h
            exact Bool.noConfusion h
      · refine iff_of_false ?_ ?_
        · intro h
          rw [hres] at h
          exact Except.noConfusion h
        · intro hc
          exact c2 hc.2.2
      · intro r h
        rw [hres] at h
        have h2 := Except.ok.inj h
        rw [← h2]

/-- Witness for C9: a concrete valid submission is created with
`approved = false` and prepended to the table. -/
theorem C9_createFeedback_validation_witness :
    (createFeedback [] 1 inpGood).2
      = .ok { id := 1, siteSlug := "DEMO", rating := 5, comment := "bom", approved := false }
    ∧ ({ id := 1, siteSlug := "DEMO", rating := 5, comment := "bom",
         approved := false } : CreateResult).approved = false
    ∧ (createFeedback [] 1 inpGood).1
      = [{ id := 1, siteSlug := "DEMO", name := none, email := none, phone := none,
           rating := 5, comment := "bom", approved := false }] := by
  have h := C9_createFeedback_validation [] 1 inpGood
  have hok : (createFeedback [] 1 inpGood).2
      = .ok { id := 1, siteSlug := "DEMO", rating := 5, comment := "bom", approved := false } := rfl
  refine ⟨hok, h.2.2.1 _ hok, (h.2.2.2 _ hok).trans (by decide)⟩

/-- Pointwise-equal functions give equal list maps. -/
theorem listMapCongrFun {α β : Type} (l : List α) (f g : α → β) (hp : ∀ a, f a = g a) :
    l.map f = l.map g := by
  induction l with
  | nil => rfl
  | cons x xs ih => simp only [List.map_cons, hp, ih]

/-- The users component of one sweep iteration. -/
theorem graceStep_users_eq (acc : GraceDB) (u : User) :
    (graceStep acc u).users = acc.users.map
      (fun v => if v.id == u.id then { v with billingStatus := some "cancelled" } else v) := rfl

/-- The sites component of one sweep iteration: toggling (with its caught
failure) is the same as deactivating every site matching the user's
normalized truthy slug. -/
theorem graceStep_sites_eq (acc : GraceDB) (u : User) :
    (graceStep acc u).sites = acc.sites.map
      (fun s => if hitSlug (deactivateSlugs [u]) s then { s with active := false } else s) := by
  obtain ⟨uid, urole, uemail, uslug, uplan, ubs, ubn, uba, ubc, ubp, uua⟩ := u
  cases uslug with
  | none =>
    symm
    apply listMapEqSelf
    intro s _
    simp [hitSlug, deactivateSlugs]
  | some slug =>
    cases hne : (slug != "") with
    | false =>
      have hsl : slug = "" := by simpa using hne
      subst hsl
      symm
      apply listMapEqSelf
      intro s _
      simp [hitSlug, deactivateSlugs]
    | true =>
      have hne' : ¬ slug = "" := by simpa using hne
      have hd : deactivateSlugs
          [⟨uid, urole, uemail, some slug, uplan, ubs, ubn, uba, ubc, ubp, uua⟩]
          = [normalizeSlugStr slug] := by
        simp [deactivateSlugs, hne']
      rw [hd]
      simp only [graceStep]
      rw [if_pos hne]
      cases hex : acc.sites.any (fun s => s.slug == normalizeSlugStr slug) with
      | true =>
        have ht : toggleSite acc.sites slug false
            = .ok (acc.sites.map (fun s =>
                if s.slug == normalizeSlugStr slug then { s with active := false } else s)) := by
          simp only [toggleSite]
          rw [if_pos hex]
        rw [ht]
        apply listMapCongrFun
        intro s
        simp [hitSlug]
      | false =>
        have ht : toggleSite acc.sites slug false = .error (.jsError "site_not_found") := by
          simp only [toggleSite]
          rw [if_neg (by simp [hex])]
        rw [ht]
        symm
        apply listMapEqSelf
        intro s hs
        cases hps : (s.slug == normalizeSlugStr slug) with
        | false => simp [hitSlug, hps]
        | true =>
          exfalso
          have hany : acc.sites.any (fun t => t.slug == normalizeSlugStr slug) = true :=
            List.any_eq_true.mpr ⟨s, hs, hps⟩
          rw [hex] at hany
          exact Bool.noConfusion hany

/-- Splitting the deactivation slug list at its head. -/
theorem deactivateSlugs_cons (u : User) (todo : List User) :
    deactivateSlugs (u :: todo) = deactivateSlugs [u] ++ deactivateSlugs todo := by
  obtain ⟨uid, urole, uemail, uslug, uplan, ubs, ubn, uba, ubc, ubp, uua⟩ := u
  cases uslug with
  | none => simp [deactivateSlugs]
  | some slug =>
    by_cases hsl : slug = ""
    · subst hsl
      simp [deactivateSlugs]
    · simp [deactivateSlugs, hsl]

/-- Fusion of the sweep's fold: after processing a list of overdue users,
every user sharing an id with one of them is cancelled and every site
matching one of their normalized truthy slugs is deactivated, and nothing
else changes. -/
theorem foldl_graceStep_eq (todo : List User) (acc : GraceDB) :
    todo.foldl graceStep acc =
      { users := acc.users.map (fun v => if hitId (cancelIds todo) v
          then { v with billingStatus := some "cancelled" } else v),
        sites := acc.sites.map (fun s => if hitSlug (deactivateSlugs todo) s
          then { s with active := false } else s) } := by
  induction todo generalizing acc with
  | nil =>
    have hu : acc.users.map (fun v => if hitId (cancelIds []) v
        then { v with billingStatus := some "cancelled" } else v) = acc.users :=
      listMapEqSelf _ _ (fun v _ => by simp [hitId, cancelIds])
    have hs : acc.sites.map (fun s => if hitSlug (deactivateSlugs []) s
        then { s with active := false } else s) = acc.sites :=
      listMapEqSelf _ _ (fun s _ => by simp [hitSlug, deactivateSlugs])
    rw [List.foldl_nil, hu, hs]
  | cons u todo ih =>
    rw [List.foldl_cons, ih]
    have happ : deactivateSlugs (u :: todo) = deactivateSlugs [u] ++ deactivateSlugs todo :=
      deactivateSlugs_cons u todo
    have hu : (graceStep acc u).users.map (fun v => if hitId (cancelIds todo) v
        then { v with billingStatus := some "cancelled" } else v)
        = acc.users.map (fun v => if hitId (cancelIds (u :: todo)) v
            then { v with billingStatus := some "cancelled" } else v) := by
      rw [graceStep_users_eq]
      apply listMapMapEq
      intro v
      by_cases hv : (v.id == u.id) = true
      · simp [hitId, cancelIds, hv]
      · simp [hitId, cancelIds, hv]
    have hsites : (graceStep acc u).sites.map (fun s => if hitSlug (deactivateSlugs todo) s
        then { s with active := false } else s)
        = acc.sites.map (fun s => if hitSlug (deactivateSlugs (u :: todo)) s
            then { s with active := false } else s) := by
      rw [graceStep_sites_eq]
      apply listMapMapEq
      intro s
      have hb : hitSlug (deactivateSlugs (u :: todo)) s
          = (hitSlug (deactivateSlugs [u]) s || hitSlug (deactivateSlugs todo) s) := by
        rw [happ]
        simp only [hitSlug, List.any_append]
      by_cases h1 : hitSlug (deactivateSlugs [u]) s = true
      · rw [if_pos h1]
        rw [show hitSlug (deactivateSlugs todo) ({ s with active := false } : Site)
              = hitSlug (deactivateSlugs todo) s from rfl]
        rw [show ({ ({ s with active := false } : Site) with active := false })
              = ({ s with active := false } : Site) from rfl]
        rw [ite_self, hb, h1, Bool.true_or, if_pos rfl]
      · rw [if_neg h1]
        have h1' : hitSlug (deactivateSlugs [u]) s = false := by simpa using h1
        rw [hb, h1', Bool.false_or]
    rw [hu, hsites]

/-- The sweep in closed form. -/
theorem processGracePeriodCheck_eq (db : GraceDB) (now : Int) :
    processGracePeriodCheck db now =
      ({ users := db.users.map (fun v => if hitId (cancelIds (overdueUsersOf db now)) v
            then { v with billingStatus := some "cancelled" } else v),
         sites := db.sites.map (fun s => if hitSlug (deactivateSlugs (overdueUsersOf db now)) s
            then { s with active := false } else s) },
       { processed := (overdueUsersOf db now).length,
         deactivatedSites := ((overdueUsersOf db now).filter (fun u => strTruthy u.siteSlug)).map
           (fun u => u.siteSlug.getD "") }) := by
  calc processGracePeriodCheck db now
      = ((overdueUsersOf db now).foldl graceStep db,
         { processed := (overdueUsersOf db now).length,
           deactivatedSites := ((overdueUsersOf db now).filter (fun u => strTruthy u.siteSlug)).map
             (fun u => u.siteSlug.getD "") }) := rfl
    _ = _ := by rw [foldl_graceStep_eq]

/-- Every user of the post-sweep state sharing an id with a selected
overdue user has been cancelled. -/
theorem sweep_cancels (db : GraceDB) (now : Int) (v : User)
    (hv : v ∈ (processGracePeriodCheck db now).1.users)
    (hhit : hitId (cancelIds (overdueUsersOf db now)) v = true) :
    v.billingStatus = some "cancelled" := by
  rw [processGracePeriodCheck_eq] at hv
  simp only [List.mem_map] at hv
  obtain ⟨v0, hv0, heq⟩ := hv
  by_cases h0 : hitId (cancelIds (overdueUsersOf db now)) v0 = true
  · rw [if_pos h0] at heq
    rw [← heq]
  · rw [if_neg h0] at heq
    rw [← heq] at hhit
    exact absurd hhit h0

/-- Every site of the post-sweep state matching a selected overdue user's
normalized truthy slug has been deactivated. -/
theorem sweep_deactivates (db : GraceDB) (now : Int) (s : Site)
    (hs : s ∈ (processGracePeriodCheck db now).1.sites)
    (hhit : hitSlug (deactivateSlugs (overdueUsersOf db now)) s = true) :
    s.active = false := by
  rw [processGracePeriodCheck_eq] at hs
  simp only [List.mem_map] at hs
  obtain ⟨s0, hs0, heq⟩ := hs
  by_cases h0 : hitSlug (deactivateSlugs (overdueUsersOf db now)) s0 = true
  · rw [if_pos h0] at heq
    rw [← heq]
  · rw [if_neg h0] at heq
    rw [← heq] at hhit
    exact absurd hhit h0

/-- A cancelled user is never selected by the sweep's query. -/
theorem graceSelect_of_cancelled (now2 : Int) (v : User)
    (h : v.billingStatus = some "cancelled") : graceSelect now2 v = false := by
  obtain ⟨uid, urole, uemail, uslug, uplan, ubs, ubn, uba, ubc, ubp, uua⟩ := v
  simp only at h
  subst h
  cases ubn with
  | none => rfl
  | some next => simp [graceSelect]

/-- C2 counterexample: a user whose `billing_status` is NULL is *not*
selected by the sweep even when their `billing_next` is 10 days past and
their status is neither `'cancelled'` nor `'suspended'`: under SQL
three-valued logic `NULL NOT IN ('cancelled','suspended')` is unknown, so
the row is filtered out, the user keeps their NULL status, their site
stays active, and the processed count is 0 — while the claim's selection
condition includes them. -/
theorem C2_counterexample :
    processGracePeriodCheck exNullStatusDB 0
      = (exNullStatusDB, { processed := 0, deactivatedSites := [] })
    ∧ exNullStatusUser.billingNext = some (-(10 * msPerDay))
    ∧ (-(10 * msPerDay) : Int) < 0 - graceDays * msPerDay
    ∧ exNullStatusUser.billingStatus ≠ some "cancelled"
    ∧ exNullStatusUser.billingStatus ≠ some "suspended" :=
  ⟨rfl, rfl, by decide, by decide, by decide⟩

/-- C2 (amended): one sweep run cancels exactly the users selected by the
SQL query — those with a non-null `billingNext` more than 3 days before
now AND a non-null `billingStatus` other than `'cancelled'`/`'suspended'`
(a NULL status row is never selected, per SQL `NOT IN` semantics) — sets
each selected user's status to `'cancelled'`, deactivates every existing
site matching a selected user's truthy slug, leaves everything else
unchanged, and returns the processed count and the selected users' truthy
site slugs; an immediately following run selects none of the first run's
users and its processed count counts only its own (disjoint) selection. -/
theorem C2_grace_period_sweep (db : GraceDB) (now now2 : Int) :
    (processGracePeriodCheck db now).2.processed = (overdueUsersOf db now).length
    ∧ (processGracePeriodCheck db now).2.deactivatedSites
        = ((overdueUsersOf db now).filter (fun u => strTruthy u.siteSlug)).map
            (fun u => u.siteSlug.getD "")
    ∧ (processGracePeriodCheck db now).1.users
        = db.users.map (fun v => if hitId (cancelIds (overdueUsersOf db now)) v
            then { v with billingStatus := some "cancelled" } else v)
    ∧ (processGracePeriodCheck db now).1.sites
        = db.sites.map (fun s => if hitSlug (deactivateSlugs (overdueUsersOf db now)) s
            then { s with active := false } else s)
    ∧ (∀ v, v ∈ (processGracePeriodCheck db now).1.users →
        hitId (cancelIds (overdueUsersOf db now)) v = true →
        v.billingStatus = some "cancelled")
    ∧ (∀ v, v ∈ overdueUsersOf (processGracePeriodCheck db now).1 now2 →
        hitId (cancelIds (overdueUsersOf db now)) v = false)
    ∧ (processGracePeriodCheck (processGracePeriodCheck db now).1 now2).2.processed
        = (overdueUsersOf (processGracePeriodCheck db now).1 now2).length := by
  refine ⟨rfl, rfl, ?_, ?_, ?_, ?_, rfl⟩
  · rw [processGracePeriodCheck_eq]
  · rw [processGracePeriodCheck_eq]
  · exact fun v hv hh => sweep_cancels db now v hv hh
  · intro v hv
    have hv' := hv
    simp only [overdueUsersOf, List.mem_filter] at hv'
    cases hcase : hitId (cancelIds (overdueUsersOf db now)) v with
    | false => rfl
    | true =>
      exfalso
      have hbs : v.billingStatus = some "cancelled" :=
        sweep_cancels db now v hv'.1 hcase
      have hsel : graceSelect now2 v = false := graceSelect_of_cancelled now2 v hbs
      rw [hv'.2] at hsel
      exact Bool.noConfusion hsel

/-- Witness for C2: in a concrete state with one 10-days-overdue approved
user (site `DEMO`) and one not-yet-overdue user, the first sweep processes
exactly the overdue user, reports `DEMO` deactivated, cancels them; a
second sweep 10 days later selects only the other user — the first run's
user is excluded — and counts only that one. -/
theorem C2_grace_period_sweep_witness :
    (processGracePeriodCheck exGraceDB2 0).2.processed = 1
    ∧ (processGracePeriodCheck exGraceDB2 0).2.deactivatedSites = ["DEMO"]
    ∧ ({ exOverdueUser with billingStatus := some "cancelled" } : User).billingStatus
        = some "cancelled"
    ∧ hitId (cancelIds (overdueUsersOf exGraceDB2 0)) exLaterUser = false
    ∧ (processGracePeriodCheck (processGracePeriodCheck exGraceDB2 0).1
        (10 * msPerDay)).2.processed = 1 := by
  have h := C2_grace_period_sweep exGraceDB2 0 (10 * msPerDay)
  refine ⟨h.1.trans (by decide), h.2.1.trans (by decide), ?_, ?_, ?_⟩
  · exact h.2.2.2.2.1 _ (by decide) (by decide)
  · exact h.2.2.2.2.2.1 exLaterUser (by decide)
  · exact h.2.2.2.2.2.2.trans (by decide)

/-- C8: when the deactivation of one overdue user's site fails (their
slug matches no `sites` row, so `toggleSite` throws), the sweep still
runs to completion: the processed count still covers the whole result
set, every selected user is still cancelled, every *other* selected
user's existing site is still deactivated, and the aggregate result —
including the failed slug in the deactivated list, as the code builds it
from the selection, not from toggle outcomes — is still returned rather
than a thrown error. -/
theorem C8_sweep_log_and_continue (db : GraceDB) (now : Int) (u : User)
    (hu : u ∈ overdueUsersOf db now) (hfail : toggleFails db.sites u = true) :
    (processGracePeriodCheck db now).2.processed = (overdueUsersOf db now).length
    ∧ (∀ v, v ∈ (processGracePeriodCheck db now).1.users →
        hitId (cancelIds (overdueUsersOf db now)) v = true →
        v.billingStatus = some "cancelled")
    ∧ (∀ s, s ∈ (processGracePeriodCheck db now).1.sites →
        hitSlug (deactivateSlugs (overdueUsersOf db now)) s = true → s.active = false)
    ∧ (processGracePeriodCheck db now).2.deactivatedSites
        = ((overdueUsersOf db now).filter (fun w => strTruthy w.siteSlug)).map
            (fun w => w.siteSlug.getD "") :=
  ⟨rfl, fun v hv hh => sweep_cancels db now v hv hh,
   fun s hs hh => sweep_deactivates db now s hs hh, rfl⟩

/-- Witness for C8: with two overdue users, the first of whom has slug
`GONE` matching no site, the sweep still processes both, cancels the
`GONE` user, deactivates the other user's site `DEMO`, and returns both
slugs. -/
theorem C8_sweep_log_and_continue_witness :
    (processGracePeriodCheck exFailDB 0).2.processed = 2
    ∧ ({ exGoneUser with billingStatus := some "cancelled" } : User)
        ∈ (processGracePeriodCheck exFailDB 0).1.users
    ∧ ({ exGoneUser with billingStatus := some "cancelled" } : User).billingStatus
        = some "cancelled"
    ∧ ({ slug := "DEMO", active := false } : Site)
        ∈ (processGracePeriodCheck exFailDB 0).1.sites
    ∧ ({ slug := "DEMO", active := false } : Site).active = false
    ∧ (processGracePeriodCheck exFailDB 0).2.deactivatedSites = ["GONE", "DEMO"] := by
  have h := C8_sweep_log_and_continue exFailDB 0 exGoneUser (by decide) (by decide)
  refine ⟨h.1.trans (by decide), by decide, ?_, by decide, ?_, h.2.2.2.trans (by decide)⟩
  · exact h.2.1 _ (by decide) (by decide)
  · exact h.2.2.1 _ (by decide) (by decide)

end Elevea
